import Mathlib

/-!
# Carbonseed Telemetry Signal & Health-Scoring Engine — verification

Shallow embedding of the signal engine of `backend/app`:

* `routers/signals.py` — threshold rule evaluation (`check_thresholds`),
  live per-reading evaluation (`process_signals_for_reading`), the batch
  sweep with deduplication (`generate_signals_from_mock_data`), and signal
  acknowledgment (`acknowledge_signal`);
* `services/gemini.py` — the AI fallback adapter (`analyze_anomaly`);
* `routers/devices.py` — the uptime computation of `get_device_status`;
* `routers/factories.py` — the vibration health score of
  `get_factory_dashboard`.

Python floats are embedded as exact rationals (`ℚ`); timestamps as natural
numbers (seconds).  External I/O (the HTTP response of the AI collaborator
and the JSON parse step) is passed in as explicit parameters, so the
functions stay pure while keeping the source's control flow.
-/

namespace Carbonseed

/-- `models.AlertSeverity` (models.py). -/
inductive AlertSeverity
  | info
  | warning
  | critical
  deriving DecidableEq, Repr

/-- `models.SignalType` (models.py). -/
inductive SignalType
  | anomaly
  | threshold_breach
  | predictive
  | maintenance
  | efficiency
  deriving DecidableEq, Repr

/-- `models.SignalStatus` (models.py). -/
inductive SignalStatus
  | new
  | processing
  | completed
  | failed
  deriving DecidableEq, Repr

/-- `models.SensorReading` (models.py): every sensor column is nullable
(`Column(Float)`), hence `Option ℚ`. -/
structure SensorReading where
  device_id : Nat
  timestamp : Nat
  temperature : Option ℚ
  gas_index : Option ℚ
  vibration_x : Option ℚ
  vibration_y : Option ℚ
  vibration_z : Option ℚ
  humidity : Option ℚ
  pressure : Option ℚ
  power_consumption : Option ℚ
  deriving DecidableEq, Repr

/-- `models.Device` (models.py), restricted to the fields the signal engine
reads. -/
structure Device where
  id : Nat
  factory_id : Nat
  device_name : String
  machine_name : String
  deriving DecidableEq, Repr

/-- The `THRESHOLDS` dict of signals.py. -/
structure Thresholds where
  temperature_high : ℚ
  temperature_low : ℚ
  gas_index_high : ℚ
  vibration_critical : ℚ
  vibration_warning : ℚ
  humidity_high : ℚ
  humidity_low : ℚ
  power_consumption_high : ℚ

def THRESHOLDS : Thresholds :=
  { temperature_high := 900
  , temperature_low := 20
  , gas_index_high := 400
  , vibration_critical := 8.0
  , vibration_warning := 5.0
  , humidity_high := 80
  , humidity_low := 20
  , power_consumption_high := 50 }

/-- One element of the anomaly-dict list built by `check_thresholds`. -/
structure Anomaly where
  type : SignalType
  title : String
  description : String
  severity : AlertSeverity
  recommendation : String
  deriving DecidableEq, Repr

/-- Python truthiness of an optional float: `None` and `0.0` are falsy
(`if reading.temperature:` and the like). -/
def truthy (x : Option ℚ) : Bool :=
  match x with
  | none => false
  | some v => v != 0

/-- Python `x or 0` for an optional float: `None` and `0.0` both yield `0`,
any other value passes through — value-wise identical to `Option.getD 0`. -/
def orZero (x : Option ℚ) : ℚ := x.getD 0

/-- The anomaly dict appended by the temperature rule
(signals.py lines 52-58). -/
def temperatureAnomaly (t : ℚ) : Anomaly :=
  let high := THRESHOLDS.temperature_high
  { type := SignalType.threshold_breach
  , title := "High Temperature Alert"
  , description := s!"Temperature {t}°C exceeds threshold of {high}°C"
  , severity :=
      if t > high * 1.1 then AlertSeverity.critical
      else AlertSeverity.warning
  , recommendation := "Check cooling systems and reduce furnace load if safe to do so." }

/-- Temperature rule of `check_thresholds` (signals.py lines 49-58). -/
def temperature_check (reading : SensorReading) : List Anomaly :=
  match reading.temperature with
  | none => []
  | some t =>
      if t = 0 then []          -- Python truthiness: 0.0 is skipped
      else if t > THRESHOLDS.temperature_high then [temperatureAnomaly t]
      else []

/-- The anomaly dict appended by the gas-index rule
(signals.py lines 63-69). -/
def gasAnomaly (g : ℚ) : Anomaly :=
  let high := THRESHOLDS.gas_index_high
  { type := SignalType.anomaly
  , title := "Elevated Gas Index"
  , description := s!"Gas index {g} exceeds threshold of {high}"
  , severity := AlertSeverity.warning
  , recommendation := "Check ventilation systems and air quality. May indicate process issues." }

/-- Gas-index rule of `check_thresholds` (signals.py lines 61-69). -/
def gas_index_check (reading : SensorReading) : List Anomaly :=
  match reading.gas_index with
  | none => []
  | some g =>
      if g = 0 then []
      else if g > THRESHOLDS.gas_index_high then [gasAnomaly g]
      else []

/-- `max(reading.vibration_x or 0, reading.vibration_y or 0,
reading.vibration_z or 0)` (signals.py lines 72-76). -/
def max_vibration (reading : SensorReading) : ℚ :=
  max (orZero reading.vibration_x)
    (max (orZero reading.vibration_y) (orZero reading.vibration_z))

/-- The anomaly dict of the critical vibration tier
(signals.py lines 78-84). -/
def vibrationCriticalAnomaly (v : ℚ) : Anomaly :=
  let crit := THRESHOLDS.vibration_critical
  { type := SignalType.maintenance
  , title := "Critical Vibration Detected"
  , description := s!"Vibration level {v} exceeds critical threshold of {crit}"
  , severity := AlertSeverity.critical
  , recommendation := "Immediate maintenance required. Check for bearing wear, misalignment, or loose components." }

/-- The anomaly dict of the warning vibration tier
(signals.py lines 86-92). -/
def vibrationWarningAnomaly (v : ℚ) : Anomaly :=
  let warn := THRESHOLDS.vibration_warning
  { type := SignalType.predictive
  , title := "Elevated Vibration Warning"
  , description := s!"Vibration level {v} exceeds warning threshold of {warn}"
  , severity := AlertSeverity.warning
  , recommendation := "Schedule preventive maintenance within 48 hours." }

/-- Vibration rule of `check_thresholds` (signals.py lines 77-92): the
critical tier takes precedence (`if`/`elif`). -/
def vibration_check (reading : SensorReading) : List Anomaly :=
  let v := max_vibration reading
  if v > THRESHOLDS.vibration_critical then [vibrationCriticalAnomaly v]
  else if v > THRESHOLDS.vibration_warning then [vibrationWarningAnomaly v]
  else []

/-- The anomaly dict appended by the power-consumption rule
(signals.py lines 97-103). -/
def powerAnomaly (p : ℚ) : Anomaly :=
  let high := THRESHOLDS.power_consumption_high
  { type := SignalType.efficiency
  , title := "High Power Consumption"
  , description := s!"Power consumption {p} kWh exceeds threshold of {high} kWh"
  , severity := AlertSeverity.info
  , recommendation := "Review process efficiency. Consider load balancing or equipment optimization." }

/-- Power-consumption rule of `check_thresholds` (signals.py lines 95-103). -/
def power_check (reading : SensorReading) : List Anomaly :=
  match reading.power_consumption with
  | none => []
  | some p =>
      if p = 0 then []
      else if p > THRESHOLDS.power_consumption_high then [powerAnomaly p]
      else []

/-- `check_thresholds(reading, device)` (signals.py lines 45-105): the four
rules append to one list in source order.  The `device` argument is unused
in the source body as well. -/
def check_thresholds (reading : SensorReading) (device : Device) : List Anomaly :=
  temperature_check reading ++ gas_index_check reading ++
    vibration_check reading ++ power_check reading

/-- The JSON `input_data` snapshot, modelled as the association list the
source writes literally (keys in source order). -/
def InputData := List (String × Option ℚ)

deriving instance DecidableEq, Repr for InputData

/-- Result dict of the AI collaborator, accessed in the source only through
`dict.get`, hence every field is optional. -/
structure AIResult where
  anomaly_detected : Option Bool
  severity : Option String
  issue : Option String
  recommendation : Option String
  deriving DecidableEq, Repr

/-- `models.Signal` (models.py), restricted to the fields the engine sets. -/
structure Signal where
  device_id : Nat
  factory_id : Nat
  signal_type : SignalType
  status : SignalStatus
  title : String
  description : String
  severity : AlertSeverity
  recommendation : String
  input_data : InputData
  analysis_result : Option AIResult
  confidence_score : ℚ
  detected_at : Nat
  processed_at : Option Nat
  deriving DecidableEq, Repr

/-- `gemini_service.analyze_anomaly` (gemini.py lines 76-90), from the point
where the collaborator's HTTP response text is in hand: `response` is what
`generate_insight` returned (`none` models no configuration / network
failure / non-200), and `jsonParse` models `json.loads` (`none` = raised).
An unparsable response degrades to a no-anomaly dict that carries the raw
text as the recommendation. -/
def analyze_anomaly (jsonParse : String → Option AIResult)
    (response : Option String) : Option AIResult :=
  match response with
  | none => none
  | some raw =>
      match jsonParse raw with
      | some parsed => some parsed
      | none =>
          some { anomaly_detected := some false
               , severity := some "info"
               , issue := some "Unable to parse AI response"
               , recommendation := some raw }

/-- `models.AlertSeverity(s)`: Python enum lookup by value; an unknown value
raises `ValueError`, modelled as `none`. -/
def alertSeverityOfString (s : String) : Option AlertSeverity :=
  if s = "info" then some AlertSeverity.info
  else if s = "warning" then some AlertSeverity.warning
  else if s = "critical" then some AlertSeverity.critical
  else none

/-- Python truthiness of `dict.get("anomaly_detected")`: missing key and
`False` are falsy. -/
def truthyBool (x : Option Bool) : Bool := x.getD false

/-- The `input_data` dict of the live evaluation path
(signals.py lines 130-138). -/
def liveInputData (reading : SensorReading) : InputData :=
  [ ("temperature", reading.temperature)
  , ("gas_index", reading.gas_index)
  , ("vibration_x", reading.vibration_x)
  , ("vibration_y", reading.vibration_y)
  , ("vibration_z", reading.vibration_z)
  , ("humidity", reading.humidity)
  , ("power_consumption", reading.power_consumption) ]

/-- The `input_data` dict of the AI branch and of the batch sweep
(signals.py lines 160-166 and 486-492). -/
def shortInputData (reading : SensorReading) : InputData :=
  [ ("temperature", reading.temperature)
  , ("gas_index", reading.gas_index)
  , ("vibration_x", reading.vibration_x)
  , ("vibration_y", reading.vibration_y)
  , ("vibration_z", reading.vibration_z) ]

/-- Rule-based signal of the live path (signals.py lines 121-142):
status `completed`, confidence 95, `processed_at` set to now. -/
def mkRuleSignal (reading : SensorReading) (device : Device) (now : Nat)
    (a : Anomaly) : Signal :=
  { device_id := device.id
  , factory_id := device.factory_id
  , signal_type := a.type
  , status := SignalStatus.completed
  , title := a.title
  , description := a.description
  , severity := a.severity
  , recommendation := a.recommendation
  , input_data := liveInputData reading
  , analysis_result := none
  , confidence_score := 95.0
  , detected_at := reading.timestamp
  , processed_at := some now }

/-- AI-sourced signal of the live path (signals.py lines 151-171):
status `completed`, confidence 75. -/
def mkAISignal (reading : SensorReading) (device : Device) (now : Nat)
    (ai : AIResult) (sev : AlertSeverity) : Signal :=
  { device_id := device.id
  , factory_id := device.factory_id
  , signal_type := SignalType.anomaly
  , status := SignalStatus.completed
  , title := "AI Detected: " ++ ai.issue.getD "Anomaly"
  , description := ai.issue.getD "Anomaly detected by AI analysis"
  , severity := sev
  , recommendation := ai.recommendation.getD "Review sensor data"
  , input_data := shortInputData reading
  , analysis_result := some ai
  , confidence_score := 75.0
  , detected_at := reading.timestamp
  , processed_at := some now }

/-- Body of the `try:` block of the AI branch (signals.py lines 148-173).
`Except.error` marks an exception raised inside the block: the only raise
the model covers is `models.AlertSeverity(...)` on an invalid severity
string (a `ValueError`).  Network and parse failures never raise — the
adapter already folded them into its return value. -/
def ai_try_block (reading : SensorReading) (device : Device) (now : Nat)
    (response : Option String) (jsonParse : String → Option AIResult) :
    Except String (List Signal) :=
  match analyze_anomaly jsonParse response with
  | none => Except.ok []
  | some ai =>
      if truthyBool ai.anomaly_detected then
        match alertSeverityOfString (ai.severity.getD "info") with
        | some sev => Except.ok [mkAISignal reading device now ai sev]
        | none => Except.error "ValueError: invalid AlertSeverity value"
      else Except.ok []

/-- Observable outcome of `process_signals_for_reading`: the created
signals, whether the AI branch was entered (the collaborator call site),
and whether `db.commit()` ran. -/
structure ProcessResult where
  signals_created : List Signal
  ai_invoked : Bool
  committed : Bool
  deriving DecidableEq, Repr

/-- `process_signals_for_reading` (signals.py lines 108-180).  The AI branch
runs exactly when `use_ai` is set and the rule evaluation found nothing; its
exceptions are swallowed by the bare `except`; `db.commit()` runs only when
at least one signal was built. -/
def process_signals_for_reading (reading : SensorReading) (device : Device)
    (use_ai : Bool) (now : Nat) (response : Option String)
    (jsonParse : String → Option AIResult) : ProcessResult :=
  let threshold_anomalies := check_thresholds reading device
  let rule_signals := threshold_anomalies.map (mkRuleSignal reading device now)
  let ai_invoked := use_ai && (threshold_anomalies.length == 0)
  let ai_signals : List Signal :=
    if ai_invoked then
      match ai_try_block reading device now response jsonParse with
      | Except.ok built => built
      | Except.error _ => []          -- `except Exception as e: print(...)`
    else []
  let signals_created := rule_signals ++ ai_signals
  { signals_created := signals_created
  , ai_invoked := ai_invoked
  , committed := signals_created.length != 0 }

/-- Signal built by the batch sweep (signals.py lines 477-495):
status `new`, confidence 95, no `processed_at`. -/
def mkBatchSignal (device : Device) (reading : SensorReading)
    (a : Anomaly) : Signal :=
  { device_id := device.id
  , factory_id := device.factory_id
  , signal_type := a.type
  , status := SignalStatus.new
  , title := a.title
  , description := a.description
  , severity := a.severity
  , recommendation := a.recommendation
  , input_data := shortInputData reading
  , analysis_result := none
  , confidence_score := 95.0
  , detected_at := reading.timestamp
  , processed_at := none }

/-- The dedup query of the batch sweep (signals.py lines 470-474): an
existing signal matches on the exact triple (device, title, detected_at).
The session autoflushes, so signals added earlier in the same sweep are
visible — the model threads the growing store through the loops. -/
def dedupMatch (store : List Signal) (device : Device) (a : Anomaly)
    (reading : SensorReading) : Bool :=
  store.any fun s =>
    s.device_id == device.id && s.title == a.title &&
      s.detected_at == reading.timestamp

/-- Inner anomaly loop of the batch sweep (signals.py lines 468-497):
returns the grown store and the number of signals created. -/
def sweepAnomalyLoop (device : Device) (reading : SensorReading) :
    List Signal → List Anomaly → List Signal × Nat
  | store, [] => (store, 0)
  | store, a :: rest =>
      if dedupMatch store device a reading then
        sweepAnomalyLoop device reading store rest
      else
        let res := sweepAnomalyLoop device reading
          (store ++ [mkBatchSignal device reading a]) rest
        (res.1, res.2 + 1)

/-- Per-device reading loop of the batch sweep (signals.py lines 464-497). -/
def sweepReadingLoop (device : Device) :
    List Signal → List SensorReading → List Signal × Nat
  | store, [] => (store, 0)
  | store, r :: rest =>
      let res := sweepAnomalyLoop device r store (check_thresholds r device)
      let res2 := sweepReadingLoop device res.1 rest
      (res2.1, res.2 + res2.2)

/-- `generate_signals_from_mock_data` (signals.py lines 419-507), abstracted
over the store queries: the factory→device→latest-readings lookups are the
`input` list (unchanged between runs when the reading store is unchanged);
the signal store is threaded explicitly.  Returns the final store and the
total number of signals created. -/
def generate_signals_from_mock_data :
    List Signal → List (Device × List SensorReading) → List Signal × Nat
  | store, [] => (store, 0)
  | store, (device, readings) :: rest =>
      let res := sweepReadingLoop device store readings
      let res2 := generate_signals_from_mock_data res.1 rest
      (res2.1, res.2 + res2.2)

/-- `acknowledge_signal` (signals.py lines 387-416), past the existence and
authorization guards: unconditionally sets status `completed` and
`processed_at := now`, touching nothing else, for a signal in any state. -/
def acknowledge_signal (signal : Signal) (now : Nat) : Signal :=
  { signal with status := SignalStatus.completed, processed_at := some now }

/-- `date_trunc('minute', timestamp)` on an epoch-seconds timestamp. -/
def minuteTrunc (t : Nat) : Nat := (t / 60) * 60

/-- The bucket expression of `get_device_status` (devices.py line 113):
`date_trunc('minute', timestamp) / 5`, under the numeric reading of the
minute-truncated value divided by 5.  SQL `/` on non-integers is exact
division, hence `ℚ`; on the configured Postgres backend the expression is
not even well-typed (timestamp ÷ integer). -/
def codeBucket (t : Nat) : ℚ := (minuteTrunc t : ℚ) / 5

/-- `count(distinct ...)` of the bucket expression over the readings of the
trailing window (devices.py lines 112-117). -/
def intervals_with_data (timestamps : List Nat) : Nat :=
  (timestamps.map codeBucket).dedup.length

/-- Uptime percentage of `get_device_status` (devices.py lines 105-130):
`total_intervals = 288`; `if intervals_with_data:` is Python truthiness, so
a zero count leaves the percentage `None`. -/
def uptime_percentage (timestamps : List Nat) : Option ℚ :=
  let n := intervals_with_data timestamps
  if n ≠ 0 then some ((n : ℚ) / 288 * 100) else none

/-- Follows the spec's words, for comparison with the code: a reading at
second `t` covers the fixed 5-minute bucket `t / 300` of the window. -/
def spec_covered_buckets (timestamps : List Nat) : Nat :=
  (timestamps.map fun t => t / 300).dedup.length

/-- Follows the spec's words, for comparison with the code:
uptime = (covered buckets / 288) × 100, undefined on zero readings. -/
def spec_uptime_percentage (timestamps : List Nat) : Option ℚ :=
  let n := spec_covered_buckets timestamps
  if n ≠ 0 then some ((n : ℚ) / 288 * 100) else none

/-- First regime of the vibration health score
(factories.py line 351): `avg_vibration > 10`. -/
def vib_score_high (v : ℚ) : ℚ := max 0 (30 - (v - 10) * 3)

/-- Second regime (factories.py line 353): `5 < avg_vibration ≤ 10`. -/
def vib_score_mid (v : ℚ) : ℚ := 70 - (v - 5) * 8

/-- Third regime (factories.py line 355): `avg_vibration ≤ 5`. -/
def vib_score_low (v : ℚ) : ℚ := 100 - v * 6

/-- The piecewise vibration health score of `get_factory_dashboard`
(factories.py lines 350-355), before the final 1-decimal rounding. -/
def vibration_score (avg_vibration : ℚ) : ℚ :=
  if avg_vibration > 10 then vib_score_high avg_vibration
  else if avg_vibration > 5 then vib_score_mid avg_vibration
  else vib_score_low avg_vibration

/-! ## Derived notions used by the claims -/

/-- The signals of a given kind among the rule evaluation's output. -/
def signalsOfType (ty : SignalType) (r : SensorReading) (d : Device) :
    List Anomaly :=
  (check_thresholds r d).filter fun a => a.type == ty

/-- The vibration-rule output among the rule evaluation's output: the two
vibration tiers are the only rules of kinds maintenance/predictive. -/
def vibrationSignals (r : SensorReading) (d : Device) : List Anomaly :=
  (check_thresholds r d).filter fun a =>
    a.type == SignalType.maintenance || a.type == SignalType.predictive

/-- The vibration channel values that are present on a reading. -/
def presentVibList (r : SensorReading) : List ℚ :=
  [r.vibration_x, r.vibration_y, r.vibration_z].filterMap id

/-- Every numeric channel of the reading is absent. -/
def allChannelsAbsent (r : SensorReading) : Prop :=
  r.temperature = none ∧ r.gas_index = none ∧ r.vibration_x = none ∧
    r.vibration_y = none ∧ r.vibration_z = none ∧ r.humidity = none ∧
    r.pressure = none ∧ r.power_consumption = none

/-- The identity of a produced signal, independent of its origin: every
field except lifecycle status, `processed_at`, the `input_data` snapshot and
the AI `analysis_result`. -/
structure SignalCore where
  device_id : Nat
  factory_id : Nat
  signal_type : SignalType
  title : String
  description : String
  severity : AlertSeverity
  recommendation : String
  confidence_score : ℚ
  detected_at : Nat
  deriving DecidableEq, Repr

def Signal.core (s : Signal) : SignalCore :=
  { device_id := s.device_id
  , factory_id := s.factory_id
  , signal_type := s.signal_type
  , title := s.title
  , description := s.description
  , severity := s.severity
  , recommendation := s.recommendation
  , confidence_score := s.confidence_score
  , detected_at := s.detected_at }

/-! ## Concrete inputs for witnesses and counterexamples -/

def dev0 : Device :=
  { id := 1, factory_id := 2, device_name := "furnace-a", machine_name := "blast-1" }

/-- A reading template with every channel absent. -/
def reading_absent : SensorReading :=
  { device_id := 1, timestamp := 1000, temperature := none, gas_index := none
  , vibration_x := none, vibration_y := none, vibration_z := none
  , humidity := none, pressure := none, power_consumption := none }

/-- Temperature exactly 990, everything else absent. -/
def reading_temp990 : SensorReading :=
  { reading_absent with temperature := some 990 }

/-- Temperature 900.01, everything else absent. -/
def reading_temp90001 : SensorReading :=
  { reading_absent with temperature := some (90001 / 100) }

/-- Vibration x-axis exactly 8.0, everything else absent. -/
def reading_vib8 : SensorReading :=
  { reading_absent with vibration_x := some 8 }

/-- A `json.loads` that always fails (the response is not JSON). -/
def parseFail : String → Option AIResult := fun _ => none

/-- A `json.loads` producing a well-formed anomaly verdict. -/
def parseAnomaly : String → Option AIResult := fun _ =>
  some { anomaly_detected := some true, severity := some "warning"
       , issue := some "Sensor silence", recommendation := some "Inspect device" }

/-- A `json.loads` producing an anomaly verdict whose severity is outside
the closed severity set. -/
def parseBadSeverity : String → Option AIResult := fun _ =>
  some { anomaly_detected := some true, severity := some "catastrophic"
       , issue := some "Meltdown", recommendation := some "Run" }

/-! ## Shape of the rule components -/

theorem temperature_check_shape (r : SensorReading) :
    temperature_check r = [] ∨
      ∃ t, r.temperature = some t ∧ temperature_check r = [temperatureAnomaly t] := by
  unfold temperature_check
  cases h : r.temperature with
  | none => exact Or.inl rfl
  | some t =>
      by_cases h0 : t = 0
      · exact Or.inl (by simp [h0])
      · by_cases h1 : t > THRESHOLDS.temperature_high
        · exact Or.inr ⟨t, rfl, by simp [h0, h1]⟩
        · exact Or.inl (by simp [h0, h1])

theorem gas_index_check_shape (r : SensorReading) :
    gas_index_check r = [] ∨
      ∃ g, r.gas_index = some g ∧ gas_index_check r = [gasAnomaly g] := by
  unfold gas_index_check
  cases h : r.gas_index with
  | none => exact Or.inl rfl
  | some g =>
      by_cases h0 : g = 0
      · exact Or.inl (by simp [h0])
      · by_cases h1 : g > THRESHOLDS.gas_index_high
        · exact Or.inr ⟨g, rfl, by simp [h0, h1]⟩
        · exact Or.inl (by simp [h0, h1])

theorem vibration_check_shape (r : SensorReading) :
    vibration_check r = [] ∨
      vibration_check r = [vibrationCriticalAnomaly (max_vibration r)] ∨
      vibration_check r = [vibrationWarningAnomaly (max_vibration r)] := by
  unfold vibration_check
  by_cases h1 : max_vibration r > THRESHOLDS.vibration_critical
  · exact Or.inr (Or.inl (by simp [h1]))
  · by_cases h2 : max_vibration r > THRESHOLDS.vibration_warning
    · exact Or.inr (Or.inr (by simp [h1, h2]))
    · exact Or.inl (by simp [h1, h2])

theorem power_check_shape (r : SensorReading) :
    power_check r = [] ∨
      ∃ p, r.power_consumption = some p ∧ power_check r = [powerAnomaly p] := by
  unfold power_check
  cases h : r.power_consumption with
  | none => exact Or.inl rfl
  | some p =>
      by_cases h0 : p = 0
      · exact Or.inl (by simp [h0])
      · by_cases h1 : p > THRESHOLDS.power_consumption_high
        · exact Or.inr ⟨p, rfl, by simp [h0, h1]⟩
        · exact Or.inl (by simp [h0, h1])

/-- Only the temperature rule produces kind threshold-breach. -/
theorem signalsOfType_breach (r : SensorReading) (d : Device) :
    signalsOfType SignalType.threshold_breach r d = temperature_check r := by
  unfold signalsOfType check_thresholds
  rw [List.filter_append, List.filter_append, List.filter_append]
  have ht : (temperature_check r).filter
      (fun a => a.type == SignalType.threshold_breach) = temperature_check r := by
    rcases temperature_check_shape r with h | ⟨t, _, h⟩ <;>
      simp [h, temperatureAnomaly]
  have hg : (gas_index_check r).filter
      (fun a => a.type == SignalType.threshold_breach) = [] := by
    rcases gas_index_check_shape r with h | ⟨g, _, h⟩ <;> simp [h, gasAnomaly]
  have hv : (vibration_check r).filter
      (fun a => a.type == SignalType.threshold_breach) = [] := by
    rcases vibration_check_shape r with h | h | h <;>
      simp [h, vibrationCriticalAnomaly, vibrationWarningAnomaly]
  have hp : (power_check r).filter
      (fun a => a.type == SignalType.threshold_breach) = [] := by
    rcases power_check_shape r with h | ⟨p, _, h⟩ <;> simp [h, powerAnomaly]
  rw [ht, hg, hv, hp, List.append_nil, List.append_nil, List.append_nil]

/-- Only the vibration rule produces kinds maintenance/predictive. -/
theorem vibrationSignals_eq (r : SensorReading) (d : Device) :
    vibrationSignals r d = vibration_check r := by
  unfold vibrationSignals check_thresholds
  rw [List.filter_append, List.filter_append, List.filter_append]
  have ht : (temperature_check r).filter (fun a =>
      a.type == SignalType.maintenance || a.type == SignalType.predictive) = [] := by
    rcases temperature_check_shape r with h | ⟨t, _, h⟩ <;>
      simp [h, temperatureAnomaly]
  have hg : (gas_index_check r).filter (fun a =>
      a.type == SignalType.maintenance || a.type == SignalType.predictive) = [] := by
    rcases gas_index_check_shape r with h | ⟨g, _, h⟩ <;> simp [h, gasAnomaly]
  have hv : (vibration_check r).filter (fun a =>
      a.type == SignalType.maintenance || a.type == SignalType.predictive) =
      vibration_check r := by
    rcases vibration_check_shape r with h | h | h <;>
      simp [h, vibrationCriticalAnomaly, vibrationWarningAnomaly]
  have hp : (power_check r).filter (fun a =>
      a.type == SignalType.maintenance || a.type == SignalType.predictive) = [] := by
    rcases power_check_shape r with h | ⟨p, _, h⟩ <;> simp [h, powerAnomaly]
  rw [ht, hg, hv, hp, List.append_nil, List.nil_append, List.nil_append]

/-! ## Claim theorems -/

/-- **C9** — For every existing signal in any lifecycle state, acknowledging
sets its status to `completed` and its `processed_at` to now, and leaves
every other field — in particular severity and kind — unchanged; no state is
rejected. -/
theorem C9_acknowledge_frame (s : Signal) (now : Nat) :
    (acknowledge_signal s now).status = SignalStatus.completed ∧
    (acknowledge_signal s now).processed_at = some now ∧
    (acknowledge_signal s now).severity = s.severity ∧
    (acknowledge_signal s now).signal_type = s.signal_type ∧
    (acknowledge_signal s now).device_id = s.device_id ∧
    (acknowledge_signal s now).factory_id = s.factory_id ∧
    (acknowledge_signal s now).title = s.title ∧
    (acknowledge_signal s now).description = s.description ∧
    (acknowledge_signal s now).recommendation = s.recommendation ∧
    (acknowledge_signal s now).input_data = s.input_data ∧
    (acknowledge_signal s now).analysis_result = s.analysis_result ∧
    (acknowledge_signal s now).confidence_score = s.confidence_score ∧
    (acknowledge_signal s now).detected_at = s.detected_at :=
  ⟨rfl, rfl, rfl, rfl, rfl, rfl, rfl, rfl, rfl, rfl, rfl, rfl, rfl⟩

/-- **C7** — The vibration health score is monotonically decreasing in
`avg_vibration` over all three regimes and continuous at the regime
boundaries: at 5 both adjacent formulas give 70, at 10 both give 30. -/
theorem C7_vibration_score_monotone :
    (∀ a b : ℚ, 0 ≤ a → a ≤ b → vibration_score b ≤ vibration_score a) ∧
    vib_score_low 5 = 70 ∧ vib_score_mid 5 = 70 ∧
    vib_score_mid 10 = 30 ∧ vib_score_high 10 = 30 ∧
    vibration_score 5 = 70 ∧ vibration_score 10 = 30 := by
  refine ⟨?_, by norm_num [vib_score_low], by norm_num [vib_score_mid],
    by norm_num [vib_score_mid], by norm_num [vib_score_high],
    by norm_num [vibration_score, vib_score_low],
    by norm_num [vibration_score, vib_score_mid]⟩
  intro a b ha hab
  unfold vibration_score vib_score_high vib_score_mid vib_score_low
  split_ifs <;> first
    | exact max_le_max le_rfl (by linarith)
    | (apply max_le <;> linarith)
    | linarith
    | (exfalso; linarith)

/-- Witness for C7 at a concrete pair of inputs. -/
theorem C7_witness : vibration_score 7 ≤ vibration_score 6 :=
  C7_vibration_score_monotone.1 6 7 (by norm_num) (by norm_num)

/-- **C6** — The uptime computation of `get_device_status` does not count
5-minute buckets: its bucket expression `date_trunc('minute', ts) / 5` is
injective on minute-truncated timestamps, so two readings one minute apart
(both inside one 5-minute bucket) count as two intervals where the claim
requires one; the zero-reading case does report no value.  This contradicts
the code's own comments (`# Count 5-minute intervals with data`,
`total_intervals = 24 * 12`). -/
theorem C6_uptime_bucket_bug :
    intervals_with_data [0, 60] = 2 ∧
    spec_covered_buckets [0, 60] = 1 ∧
    uptime_percentage [0, 60] = some (25 / 36) ∧
    spec_uptime_percentage [0, 60] = some (25 / 72) ∧
    uptime_percentage [] = none ∧
    spec_uptime_percentage [] = none := by
  have hb0 : codeBucket 0 = 0 := by norm_num [codeBucket, minuteTrunc]
  have hb60 : codeBucket 60 = 12 := by norm_num [codeBucket, minuteTrunc]
  have hdedup : ([(0 : ℚ), 12]).dedup = [0, 12] := by
    rw [List.dedup_cons_of_not_mem (by norm_num), List.dedup_cons_of_not_mem
      (by simp), List.dedup_nil]
  have hcode : intervals_with_data [0, 60] = 2 := by
    unfold intervals_with_data
    rw [List.map_cons, List.map_cons, List.map_nil, hb0, hb60, hdedup]
    rfl
  have hspec : spec_covered_buckets [0, 60] = 1 := by decide
  refine ⟨hcode, hspec, ?_, ?_, rfl, rfl⟩
  · unfold uptime_percentage
    rw [hcode]
    norm_num
  · unfold spec_uptime_percentage
    rw [hspec]
    norm_num

/-- **C2 (counterexample)** — Temperature exactly 990 yields severity
warning, not critical: the code escalates only strictly above
`900 * 1.1`. -/
theorem C2_counterexample :
    (check_thresholds reading_temp990 dev0).map Anomaly.severity =
      [AlertSeverity.warning] := by
  have h : check_thresholds reading_temp990 dev0 = [temperatureAnomaly 990] := by
    norm_num [check_thresholds, temperature_check, gas_index_check,
      vibration_check, power_check, max_vibration, orZero, reading_temp990,
      reading_absent, THRESHOLDS]
  rw [h, List.map_cons, List.map_nil]
  have : (temperatureAnomaly 990).severity = AlertSeverity.warning := by
    norm_num [temperatureAnomaly, THRESHOLDS]
  rw [this]

/-- **C2 (amended)** — For a present temperature `t`: `t = 900` produces no
temperature signal; `t > 900` produces exactly one threshold-breach signal,
critical when `t > 990` (strictly — `t = 990` gives warning) and warning
otherwise. -/
theorem C2_temperature_rule (r : SensorReading) (d : Device) (t : ℚ)
    (ht : r.temperature = some t) :
    (t = 900 → signalsOfType SignalType.threshold_breach r d = []) ∧
    (t > 900 →
      signalsOfType SignalType.threshold_breach r d = [temperatureAnomaly t] ∧
      (temperatureAnomaly t).type = SignalType.threshold_breach ∧
      (temperatureAnomaly t).severity =
        (if t > 990 then AlertSeverity.critical else AlertSeverity.warning)) := by
  rw [signalsOfType_breach]
  constructor
  · intro h900
    subst h900
    simp [temperature_check, ht, THRESHOLDS]
  · intro hgt
    have h0 : t ≠ 0 := by
      intro h
      rw [h] at hgt
      norm_num at hgt
    have hhigh : t > THRESHOLDS.temperature_high := by
      simpa [THRESHOLDS] using hgt
    refine ⟨by simp [temperature_check, ht, h0, hhigh], rfl, ?_⟩
    have : THRESHOLDS.temperature_high * 1.1 = (990 : ℚ) := by
      norm_num [THRESHOLDS]
    simp only [temperatureAnomaly, this]

/-- Witness for C2: temperature 900.01 triggers exactly one threshold-breach
signal with severity warning. -/
theorem C2_witness :
    signalsOfType SignalType.threshold_breach reading_temp90001 dev0 =
      [temperatureAnomaly (90001 / 100)] ∧
    (temperatureAnomaly (90001 / 100)).severity = AlertSeverity.warning := by
  have h := (C2_temperature_rule reading_temp90001 dev0 (90001 / 100) rfl).2
    (by norm_num)
  refine ⟨h.1, ?_⟩
  rw [h.2.2]
  norm_num

/-- A reading with every channel absent trips no threshold rule. -/
theorem check_thresholds_all_absent (r : SensorReading) (d : Device)
    (h : allChannelsAbsent r) : check_thresholds r d = [] := by
  obtain ⟨ht, hg, hx, hy, hz, _, _, hw⟩ := h
  norm_num [check_thresholds, temperature_check, gas_index_check,
    vibration_check, power_check, max_vibration, orZero, ht, hg, hx, hy, hz,
    hw, THRESHOLDS]

/-- **C1 (counterexample)** — An all-channels-absent reading evaluated with
`use_ai` left at its default does invoke the AI collaborator (the empty rule
result is exactly the fallback trigger), and if the collaborator reports an
anomaly, the returned list is not even empty. -/
theorem C1_counterexample :
    (process_signals_for_reading reading_absent dev0 true 0 (some "resp")
      parseAnomaly).ai_invoked = true ∧
    (process_signals_for_reading reading_absent dev0 true 0 (some "resp")
      parseAnomaly).signals_created.length = 1 := by
  have hc : check_thresholds reading_absent dev0 = [] :=
    check_thresholds_all_absent reading_absent dev0
      ⟨rfl, rfl, rfl, rfl, rfl, rfl, rfl, rfl⟩
  constructor <;>
    simp [process_signals_for_reading, hc, ai_try_block, analyze_anomaly,
      parseAnomaly, truthyBool, alertSeverityOfString]

/-- **C1 (amended)** — For an all-channels-absent reading the rule
evaluation returns no signals; with `use_ai = false` the evaluation returns
an empty list and the AI collaborator is not invoked; with `use_ai = true`
the collaborator is invoked. -/
theorem C1_all_absent_evaluation (r : SensorReading) (d : Device) (now : Nat)
    (resp : Option String) (parse : String → Option AIResult)
    (h : allChannelsAbsent r) :
    check_thresholds r d = [] ∧
    (process_signals_for_reading r d false now resp parse).signals_created = [] ∧
    (process_signals_for_reading r d false now resp parse).ai_invoked = false ∧
    (process_signals_for_reading r d true now resp parse).ai_invoked = true := by
  have hc := check_thresholds_all_absent r d h
  refine ⟨hc, ?_, ?_, ?_⟩ <;> simp [process_signals_for_reading, hc]

/-- Witness for C1 at the concrete all-absent reading. -/
theorem C1_witness :
    check_thresholds reading_absent dev0 = [] ∧
    (process_signals_for_reading reading_absent dev0 false 0 none
      parseFail).signals_created = [] ∧
    (process_signals_for_reading reading_absent dev0 false 0 none
      parseFail).ai_invoked = false ∧
    (process_signals_for_reading reading_absent dev0 true 0 none
      parseFail).ai_invoked = true :=
  C1_all_absent_evaluation reading_absent dev0 0 none parseFail
    ⟨rfl, rfl, rfl, rfl, rfl, rfl, rfl, rfl⟩

/-- **C8 (counterexample)** — When the rule evaluation is empty and the AI
response is unparsable, no signal at all is created (the adapter's fallback
dict carries `anomaly_detected: False`), refuting the claimed low-confidence
"unparsed" signal. -/
theorem C8_counterexample :
    (process_signals_for_reading reading_absent dev0 true 0 (some "hello")
      parseFail).signals_created = [] := by
  have hc : check_thresholds reading_absent dev0 = [] :=
    check_thresholds_all_absent reading_absent dev0
      ⟨rfl, rfl, rfl, rfl, rfl, rfl, rfl, rfl⟩
  simp [process_signals_for_reading, hc, ai_try_block, analyze_anomaly,
    parseFail, truthyBool]

/-- **C8 (amended)** — On an unparsable AI response the adapter degrades to
a no-anomaly result (`anomaly_detected = false`, issue "Unable to parse AI
response") that carries the raw response text as its recommendation field;
consequently no signal is created, and no error is raised to the caller. -/
theorem C8_unparsed_response (raw : String) (r : SensorReading) (d : Device)
    (now : Nat) (parse : String → Option AIResult)
    (hparse : parse raw = none) (hrules : check_thresholds r d = []) :
    analyze_anomaly parse (some raw) =
      some { anomaly_detected := some false, severity := some "info"
           , issue := some "Unable to parse AI response"
           , recommendation := some raw } ∧
    (process_signals_for_reading r d true now (some raw) parse).ai_invoked
      = true ∧
    (process_signals_for_reading r d true now (some raw) parse).signals_created
      = [] := by
  have hana : analyze_anomaly parse (some raw) =
      some { anomaly_detected := some false, severity := some "info"
           , issue := some "Unable to parse AI response"
           , recommendation := some raw } := by
    simp [analyze_anomaly, hparse]
  refine ⟨hana, ?_, ?_⟩ <;>
    simp [process_signals_for_reading, hrules, ai_try_block, hana, truthyBool]

/-- Witness for C8 at a concrete unparsable response. -/
theorem C8_witness :
    analyze_anomaly parseFail (some "hello") =
      some { anomaly_detected := some false, severity := some "info"
           , issue := some "Unable to parse AI response"
           , recommendation := some "hello" } ∧
    (process_signals_for_reading reading_absent dev0 true 0 (some "hello")
      parseFail).ai_invoked = true ∧
    (process_signals_for_reading reading_absent dev0 true 0 (some "hello")
      parseFail).signals_created = [] :=
  C8_unparsed_response "hello" reading_absent dev0 0 parseFail rfl
    (check_thresholds_all_absent reading_absent dev0
      ⟨rfl, rfl, rfl, rfl, rfl, rfl, rfl, rfl⟩)

/-- **C10** — When the rule evaluation is empty and the AI collaborator
reports an anomaly with a severity outside {info, warning, critical}, the
`models.AlertSeverity(...)` conversion raises inside the `try` block and the
bare `except` swallows it: no AI-sourced signal is created, no error reaches
the caller, and the evaluation returns the previously built rule signals
(here the empty list, so no commit runs either). -/
theorem C10_invalid_severity_swallowed (r : SensorReading) (d : Device)
    (now : Nat) (resp : Option String) (parse : String → Option AIResult)
    (ai : AIResult) (hrules : check_thresholds r d = [])
    (hana : analyze_anomaly parse resp = some ai)
    (hdet : ai.anomaly_detected = some true)
    (hsev : alertSeverityOfString (ai.severity.getD "info") = none) :
    ai_try_block r d now resp parse =
      Except.error "ValueError: invalid AlertSeverity value" ∧
    (process_signals_for_reading r d true now resp parse).signals_created
      = [] ∧
    (process_signals_for_reading r d true now resp parse).committed = false := by
  have htry : ai_try_block r d now resp parse =
      Except.error "ValueError: invalid AlertSeverity value" := by
    simp [ai_try_block, hana, hdet, truthyBool, hsev]
  refine ⟨htry, ?_, ?_⟩ <;>
    simp [process_signals_for_reading, hrules, htry]

/-- Witness for C10 at a concrete out-of-set severity string. -/
theorem C10_witness :
    ai_try_block reading_absent dev0 0 (some "x") parseBadSeverity =
      Except.error "ValueError: invalid AlertSeverity value" ∧
    (process_signals_for_reading reading_absent dev0 true 0 (some "x")
      parseBadSeverity).signals_created = [] ∧
    (process_signals_for_reading reading_absent dev0 true 0 (some "x")
      parseBadSeverity).committed = false :=
  C10_invalid_severity_swallowed reading_absent dev0 0 (some "x")
    parseBadSeverity
    { anomaly_detected := some true, severity := some "catastrophic"
    , issue := some "Meltdown", recommendation := some "Run" }
    (check_thresholds_all_absent reading_absent dev0
      ⟨rfl, rfl, rfl, rfl, rfl, rfl, rfl, rfl⟩)
    rfl rfl rfl

/-- The code's `max(x or 0, y or 0, z or 0)` equals the maximum `v` of the
present vibration values whenever `v` is nonnegative (the `or 0` default for
absent axes cannot exceed it). -/
theorem max_vibration_eq (r : SensorReading) (v : ℚ)
    (hmem : v ∈ presentVibList r) (hub : ∀ w ∈ presentVibList r, w ≤ v)
    (hv : 0 ≤ v) : max_vibration r = v := by
  cases hx : r.vibration_x with
  | none =>
      cases hy : r.vibration_y with
      | none =>
          cases hz : r.vibration_z with
          | none => simp [presentVibList, hx, hy, hz] at hmem
          | some c =>
              simp [presentVibList, hx, hy, hz] at hmem hub
              subst hmem
              simp only [max_vibration, orZero, hx, hy, hz, Option.getD_some,
                Option.getD_none, max_def]
              split_ifs <;> linarith
      | some b =>
          cases hz : r.vibration_z with
          | none =>
              simp [presentVibList, hx, hy, hz] at hmem hub
              subst hmem
              simp only [max_vibration, orZero, hx, hy, hz, Option.getD_some,
                Option.getD_none, max_def]
              split_ifs <;> linarith
          | some c =>
              simp [presentVibList, hx, hy, hz] at hmem hub
              obtain ⟨hb, hc⟩ := hub
              rcases hmem with h | h <;> subst h <;>
                · simp only [max_vibration, orZero, hx, hy, hz,
                    Option.getD_some, Option.getD_none, max_def]
                  split_ifs <;> linarith
  | some a =>
      cases hy : r.vibration_y with
      | none =>
          cases hz : r.vibration_z with
          | none =>
              simp [presentVibList, hx, hy, hz] at hmem hub
              subst hmem
              simp only [max_vibration, orZero, hx, hy, hz, Option.getD_some,
                Option.getD_none, max_def]
              split_ifs <;> linarith
          | some c =>
              simp [presentVibList, hx, hy, hz] at hmem hub
              obtain ⟨ha, hc⟩ := hub
              rcases hmem with h | h <;> subst h <;>
                · simp only [max_vibration, orZero, hx, hy, hz,
                    Option.getD_some, Option.getD_none, max_def]
                  split_ifs <;> linarith
      | some b =>
          cases hz : r.vibration_z with
          | none =>
              simp [presentVibList, hx, hy, hz] at hmem hub
              obtain ⟨ha, hb⟩ := hub
              rcases hmem with h | h <;> subst h <;>
                · simp only [max_vibration, orZero, hx, hy, hz,
                    Option.getD_some, Option.getD_none, max_def]
                  split_ifs <;> linarith
          | some c =>
              simp [presentVibList, hx, hy, hz] at hmem hub
              obtain ⟨ha, hb, hc⟩ := hub
              rcases hmem with h | h | h <;> subst h <;>
                · simp only [max_vibration, orZero, hx, hy, hz,
                    Option.getD_some, Option.getD_none, max_def]
                  split_ifs <;> linarith

/-- Upper bound transfer: if every present vibration value is at most a
nonnegative `c`, so is the code's defaulted maximum. -/
theorem max_vibration_le (r : SensorReading) (c : ℚ)
    (hub : ∀ w ∈ presentVibList r, w ≤ c) (hc : 0 ≤ c) :
    max_vibration r ≤ c := by
  cases hx : r.vibration_x <;> cases hy : r.vibration_y <;>
    cases hz : r.vibration_z <;>
    simp [presentVibList, hx, hy, hz] at hub <;>
    simp only [max_vibration, orZero, hx, hy, hz, Option.getD_some,
      Option.getD_none, max_def] <;>
    split_ifs <;>
    first
    | linarith
    | (obtain ⟨h1, h2⟩ := hub; linarith)
    | (obtain ⟨h1, h2, h3⟩ := hub; linarith)

/-- **C3** — With `v` the maximum of the present vibration values: the rule
evaluation produces exactly one vibration signal when `v > 5` and none
otherwise; it is the maintenance/critical tier when `v > 8` (strict: 8.0
does not reach it) and the predictive/warning tier when `5 < v ≤ 8`; the
two tiers are mutually exclusive (the equalities leave room for only one). -/
theorem C3_vibration_tiers (r : SensorReading) (d : Device) (v : ℚ)
    (hmem : v ∈ presentVibList r) (hub : ∀ w ∈ presentVibList r, w ≤ v) :
    (v > 8 → vibrationSignals r d = [vibrationCriticalAnomaly v]) ∧
    (5 < v ∧ v ≤ 8 → vibrationSignals r d = [vibrationWarningAnomaly v]) ∧
    (v ≤ 5 → vibrationSignals r d = []) ∧
    (vibrationSignals r d).length = (if 5 < v then 1 else 0) ∧
    (vibrationCriticalAnomaly v).type = SignalType.maintenance ∧
    (vibrationCriticalAnomaly v).severity = AlertSeverity.critical ∧
    (vibrationWarningAnomaly v).type = SignalType.predictive ∧
    (vibrationWarningAnomaly v).severity = AlertSeverity.warning := by
  rw [vibrationSignals_eq]
  have hcrit : THRESHOLDS.vibration_critical = 8 := by norm_num [THRESHOLDS]
  have hwarn : THRESHOLDS.vibration_warning = 5 := by norm_num [THRESHOLDS]
  have hmain : (v > 8 → vibration_check r = [vibrationCriticalAnomaly v]) ∧
      (5 < v ∧ v ≤ 8 → vibration_check r = [vibrationWarningAnomaly v]) ∧
      (v ≤ 5 → vibration_check r = []) := by
    refine ⟨?_, ?_, ?_⟩
    · intro h8
      have hmv := max_vibration_eq r v hmem hub (by linarith)
      unfold vibration_check
      rw [hmv, hcrit]
      simp [h8]
    · rintro ⟨h5, h8⟩
      have hmv := max_vibration_eq r v hmem hub (by linarith)
      unfold vibration_check
      rw [hmv, hcrit, hwarn]
      simp [h5, show ¬v > 8 by linarith]
    · intro h5
      have hle : max_vibration r ≤ 5 :=
        max_vibration_le r 5 (fun w hw => le_trans (hub w hw) h5) (by norm_num)
      unfold vibration_check
      rw [hcrit, hwarn]
      simp [show ¬max_vibration r > 8 by linarith,
        show ¬max_vibration r > 5 by linarith]
  refine ⟨hmain.1, hmain.2.1, hmain.2.2, ?_, rfl, rfl, rfl, rfl⟩
  by_cases h5 : 5 < v
  · by_cases h8 : 8 < v
    · rw [hmain.1 h8]
      simp [h5]
    · rw [hmain.2.1 ⟨h5, by linarith⟩]
      simp [h5]
  · rw [hmain.2.2 (by linarith)]
    simp [h5]

/-- Witness for C3: vibration exactly 8.0 on one axis lands in the
predictive/warning tier, not the critical one. -/
theorem C3_witness :
    vibrationSignals reading_vib8 dev0 = [vibrationWarningAnomaly 8] ∧
    (vibrationWarningAnomaly 8).type = SignalType.predictive ∧
    (vibrationWarningAnomaly 8).severity = AlertSeverity.warning := by
  have h := C3_vibration_tiers reading_vib8 dev0 8
    (by norm_num [presentVibList, reading_vib8, reading_absent])
    (by
      intro w hw
      simp [presentVibList, reading_vib8, reading_absent] at hw
      exact le_of_eq hw)
  exact ⟨h.2.1 ⟨by norm_num, by norm_num⟩, h.2.2.2.2.2.2.1, h.2.2.2.2.2.2.2⟩

/-! ## Sweep deduplication: supporting lemmas -/

/-- The anomaly loop only grows the store. -/
theorem sweepAnomalyLoop_mono (device : Device) (reading : SensorReading)
    (l : List Anomaly) :
    ∀ (store : List Signal) (s : Signal), s ∈ store →
      s ∈ (sweepAnomalyLoop device reading store l).1 := by
  induction l with
  | nil =>
      intro store s hs
      simpa [sweepAnomalyLoop] using hs
  | cons a rest ih =>
      intro store s hs
      unfold sweepAnomalyLoop
      by_cases hd : dedupMatch store device a reading = true
      · simp only [hd, if_true]
        exact ih store s hs
      · simp only [hd, if_false, Bool.false_eq_true]
        exact ih (store ++ [mkBatchSignal device reading a]) s
          (List.mem_append_left _ hs)

/-- Matching is monotone in the store. -/
theorem dedupMatch_mono {store store' : List Signal} (device : Device)
    (a : Anomaly) (reading : SensorReading)
    (hsub : ∀ s ∈ store, s ∈ store')
    (h : dedupMatch store device a reading = true) :
    dedupMatch store' device a reading = true := by
  simp only [dedupMatch, List.any_eq_true] at h ⊢
  obtain ⟨s, hs, hpred⟩ := h
  exact ⟨s, hsub s hs, hpred⟩

/-- A batch signal matches its own dedup key. -/
theorem dedupMatch_self (device : Device) (reading : SensorReading)
    (a : Anomaly) (store : List Signal)
    (h : mkBatchSignal device reading a ∈ store) :
    dedupMatch store device a reading = true := by
  simp only [dedupMatch, List.any_eq_true]
  exact ⟨_, h, by simp [mkBatchSignal]⟩

/-- After the anomaly loop, every processed candidate matches the store. -/
theorem sweepAnomalyLoop_complete (device : Device) (reading : SensorReading)
    (l : List Anomaly) :
    ∀ (store : List Signal) (a : Anomaly), a ∈ l →
      dedupMatch (sweepAnomalyLoop device reading store l).1 device a reading
        = true := by
  induction l with
  | nil =>
      intro store a ha
      simp at ha
  | cons b rest ih =>
      intro store a ha
      unfold sweepAnomalyLoop
      by_cases hd : dedupMatch store device b reading = true
      · simp only [hd, if_true]
        rcases List.mem_cons.mp ha with h | h
        · subst h
          exact dedupMatch_mono device a reading
            (fun s hs => sweepAnomalyLoop_mono device reading rest store s hs) hd
        · exact ih store a h
      · simp only [hd, if_false, Bool.false_eq_true]
        rcases List.mem_cons.mp ha with h | h
        · subst h
          refine dedupMatch_mono device a reading
            (fun s hs => sweepAnomalyLoop_mono device reading rest _ s hs) ?_
          exact dedupMatch_self device reading a _
            (List.mem_append_right _ (List.mem_singleton_self _))
        · exact ih (store ++ [mkBatchSignal device reading b]) a h

/-- If every candidate already matches, the anomaly loop is a no-op. -/
theorem sweepAnomalyLoop_matched (device : Device) (reading : SensorReading)
    (l : List Anomaly) :
    ∀ (store : List Signal),
      (∀ a ∈ l, dedupMatch store device a reading = true) →
      sweepAnomalyLoop device reading store l = (store, 0) := by
  induction l with
  | nil => intro store _; rfl
  | cons b rest ih =>
      intro store h
      unfold sweepAnomalyLoop
      have hb := h b (List.mem_cons_self b rest)
      simp only [hb, if_true]
      exact ih store fun a ha => h a (List.mem_cons_of_mem b ha)

/-- The reading loop only grows the store. -/
theorem sweepReadingLoop_mono (device : Device) (rs : List SensorReading) :
    ∀ (store : List Signal) (s : Signal), s ∈ store →
      s ∈ (sweepReadingLoop device store rs).1 := by
  induction rs with
  | nil =>
      intro store s hs
      simpa [sweepReadingLoop] using hs
  | cons r rest ih =>
      intro store s hs
      unfold sweepReadingLoop
      exact ih _ s
        (sweepAnomalyLoop_mono device r (check_thresholds r device) store s hs)

/-- After the reading loop, every candidate of every reading matches. -/
theorem sweepReadingLoop_complete (device : Device) (rs : List SensorReading) :
    ∀ (store : List Signal) (r : SensorReading) (a : Anomaly), r ∈ rs →
      a ∈ check_thresholds r device →
      dedupMatch (sweepReadingLoop device store rs).1 device a r = true := by
  induction rs with
  | nil =>
      intro store r a hr
      simp at hr
  | cons r0 rest ih =>
      intro store r a hr ha
      unfold sweepReadingLoop
      rcases List.mem_cons.mp hr with h | h
      · subst h
        refine dedupMatch_mono device a r
          (fun s hs => sweepReadingLoop_mono device rest _ s hs) ?_
        exact sweepAnomalyLoop_complete device r (check_thresholds r device)
          store a ha
      · exact ih _ r a h ha

/-- If every candidate of every reading matches, the reading loop is a
no-op. -/
theorem sweepReadingLoop_matched (device : Device) (rs : List SensorReading) :
    ∀ (store : List Signal),
      (∀ r ∈ rs, ∀ a ∈ check_thresholds r device,
        dedupMatch store device a r = true) →
      sweepReadingLoop device store rs = (store, 0) := by
  induction rs with
  | nil => intro store _; rfl
  | cons r0 rest ih =>
      intro store h
      unfold sweepReadingLoop
      rw [sweepAnomalyLoop_matched device r0 (check_thresholds r0 device) store
        (h r0 (List.mem_cons_self r0 rest))]
      dsimp only
      rw [ih store fun r hr => h r (List.mem_cons_of_mem r0 hr)]
      rfl

/-- The whole sweep only grows the store. -/
theorem generate_mono (input : List (Device × List SensorReading)) :
    ∀ (store : List Signal) (s : Signal), s ∈ store →
      s ∈ (generate_signals_from_mock_data store input).1 := by
  induction input with
  | nil =>
      intro store s hs
      simpa [generate_signals_from_mock_data] using hs
  | cons p rest ih =>
      intro store s hs
      unfold generate_signals_from_mock_data
      exact ih _ s (sweepReadingLoop_mono p.1 p.2 store s hs)

/-- After the whole sweep, every candidate of every processed
device/reading pair matches the final store. -/
theorem generate_complete (input : List (Device × List SensorReading)) :
    ∀ (store : List Signal) (d : Device) (rs : List SensorReading)
      (r : SensorReading) (a : Anomaly), (d, rs) ∈ input → r ∈ rs →
      a ∈ check_thresholds r d →
      dedupMatch (generate_signals_from_mock_data store input).1 d a r
        = true := by
  induction input with
  | nil =>
      intro store d rs r a hp
      simp at hp
  | cons p rest ih =>
      intro store d rs r a hp hr ha
      unfold generate_signals_from_mock_data
      rcases List.mem_cons.mp hp with h | h
      · have hd : p.1 = d := by rw [← h]
        have hrs : p.2 = rs := by rw [← h]
        subst hd
        subst hrs
        refine dedupMatch_mono p.1 a r
          (fun s hs => generate_mono rest _ s hs) ?_
        exact sweepReadingLoop_complete p.1 p.2 store r a hr ha
      · exact ih _ d rs r a h hr ha

/-- If every candidate of every device/reading pair matches the store, the
whole sweep is a no-op. -/
theorem generate_matched (input : List (Device × List SensorReading)) :
    ∀ (store : List Signal),
      (∀ d rs, (d, rs) ∈ input → ∀ r ∈ rs, ∀ a ∈ check_thresholds r d,
        dedupMatch store d a r = true) →
      generate_signals_from_mock_data store input = (store, 0) := by
  induction input with
  | nil => intro store _; rfl
  | cons p rest ih =>
      intro store h
      unfold generate_signals_from_mock_data
      rw [sweepReadingLoop_matched p.1 p.2 store
        (h p.1 p.2 (List.mem_cons_self p rest))]
      dsimp only
      rw [ih store fun d rs hmem => h d rs (List.mem_cons_of_mem p hmem)]
      rfl

/-- **C4** — Running the batch sweep a second time over the same scope and
readings, with the store unchanged in between, creates no new signals: every
candidate's dedup triple (device, title, detected_at) already matches a
signal persisted (or found) by the first run. -/
theorem C4_sweep_idempotent (store : List Signal)
    (input : List (Device × List SensorReading)) :
    generate_signals_from_mock_data
      (generate_signals_from_mock_data store input).1 input =
      ((generate_signals_from_mock_data store input).1, 0) := by
  apply generate_matched
  intro d rs hmem r hr a ha
  exact generate_complete input store d rs r a hmem hr ha

/-! ## Lifecycle status of created signals -/

/-- Everything the anomaly loop adds has status `new`. -/
theorem sweepAnomalyLoop_status (device : Device) (reading : SensorReading)
    (l : List Anomaly) :
    ∀ (store : List Signal) (s : Signal),
      s ∈ (sweepAnomalyLoop device reading store l).1 →
      s ∈ store ∨ s.status = SignalStatus.new := by
  induction l with
  | nil =>
      intro store s hs
      exact Or.inl (by simpa [sweepAnomalyLoop] using hs)
  | cons a rest ih =>
      intro store s hs
      unfold sweepAnomalyLoop at hs
      by_cases hd : dedupMatch store device a reading = true
      · simp only [hd, if_true] at hs
        exact ih store s hs
      · simp only [hd, if_false, Bool.false_eq_true] at hs
        rcases ih _ s hs with h | h
        · rcases List.mem_append.mp h with h' | h'
          · exact Or.inl h'
          · right
            rw [List.mem_singleton.mp h']
            rfl
        · exact Or.inr h

/-- Everything the reading loop adds has status `new`. -/
theorem sweepReadingLoop_status (device : Device) (rs : List SensorReading) :
    ∀ (store : List Signal) (s : Signal),
      s ∈ (sweepReadingLoop device store rs).1 →
      s ∈ store ∨ s.status = SignalStatus.new := by
  induction rs with
  | nil =>
      intro store s hs
      exact Or.inl (by simpa [sweepReadingLoop] using hs)
  | cons r rest ih =>
      intro store s hs
      unfold sweepReadingLoop at hs
      dsimp only at hs
      rcases ih _ s hs with h | h
      · exact sweepAnomalyLoop_status device r (check_thresholds r device)
          store s h
      · exact Or.inr h

/-- Everything the batch sweep adds has status `new`. -/
theorem generate_status (input : List (Device × List SensorReading)) :
    ∀ (store : List Signal) (s : Signal),
      s ∈ (generate_signals_from_mock_data store input).1 →
      s ∈ store ∨ s.status = SignalStatus.new := by
  induction input with
  | nil =>
      intro store s hs
      exact Or.inl (by simpa [generate_signals_from_mock_data] using hs)
  | cons p rest ih =>
      intro store s hs
      unfold generate_signals_from_mock_data at hs
      dsimp only at hs
      rcases ih _ s hs with h | h
      · exact sweepReadingLoop_status p.1 p.2 store s h
      · exact Or.inr h

/-- Everything a successful AI try-block builds has status `completed`. -/
theorem ai_try_block_status (r : SensorReading) (d : Device) (now : Nat)
    (resp : Option String) (parse : String → Option AIResult)
    (l : List Signal) (h : ai_try_block r d now resp parse = Except.ok l) :
    ∀ s ∈ l, s.status = SignalStatus.completed := by
  unfold ai_try_block at h
  rcases hana : analyze_anomaly parse resp with _ | ai <;> rw [hana] at h
  · injection h with h'
    subst h'
    intro s hs
    simp at hs
  · dsimp only at h
    by_cases hdet : truthyBool ai.anomaly_detected = true
    · rw [if_pos hdet] at h
      rcases hsev : alertSeverityOfString (ai.severity.getD "info")
        with _ | sev <;> rw [hsev] at h
      · simp at h
      · injection h with h'
        subst h'
        intro s hs
        rw [List.mem_singleton.mp hs]
        rfl
    · rw [if_neg hdet] at h
      injection h with h'
      subst h'
      intro s hs
      simp at hs

/-- Everything the live evaluation path creates has status `completed`. -/
theorem process_status (r : SensorReading) (d : Device) (use_ai : Bool)
    (now : Nat) (resp : Option String) (parse : String → Option AIResult) :
    ∀ s ∈ (process_signals_for_reading r d use_ai now resp parse).signals_created,
      s.status = SignalStatus.completed := by
  intro s hs
  unfold process_signals_for_reading at hs
  dsimp only at hs
  rcases List.mem_append.mp hs with h | h
  · obtain ⟨a, _, rfl⟩ := List.mem_map.mp h
    rfl
  · by_cases hI : (use_ai && ((check_thresholds r d).length == 0)) = true
    · rw [if_pos hI] at h
      rcases htry : ai_try_block r d now resp parse with e | l2 <;>
        rw [htry] at h <;> dsimp only at h
      · simp at h
      · exact ai_try_block_status r d now resp parse l2 htry s h
    · rw [if_neg hI] at h
      simp at h

/-! ## Fresh-store behaviour of the anomaly loop -/

/-- On a store with no matching key, candidates with pairwise-distinct
titles are all inserted, in order. -/
theorem sweepAnomalyLoop_fresh (device : Device) (reading : SensorReading)
    (l : List Anomaly) :
    ∀ (store : List Signal),
      (∀ a ∈ l, dedupMatch store device a reading = false) →
      l.Pairwise (fun a b => a.title ≠ b.title) →
      sweepAnomalyLoop device reading store l =
        (store ++ l.map (mkBatchSignal device reading), l.length) := by
  induction l with
  | nil =>
      intro store _ _
      simp [sweepAnomalyLoop]
  | cons a rest ih =>
      intro store hfresh hpw
      unfold sweepAnomalyLoop
      have ha := hfresh a (List.mem_cons_self a rest)
      simp only [ha, if_false, Bool.false_eq_true]
      rw [ih (store ++ [mkBatchSignal device reading a]) ?_
        (List.Pairwise.of_cons hpw)]
      · simp
      · intro b hb
        have h1 : dedupMatch store device b reading = false :=
          hfresh b (List.mem_cons_of_mem a hb)
        have h2 : a.title ≠ b.title := List.rel_of_pairwise_cons hpw hb
        simp only [dedupMatch, List.any_append, List.any_cons, List.any_nil,
          Bool.or_false, Bool.or_eq_false_iff] at h1 ⊢
        refine ⟨h1, ?_⟩
        simp [mkBatchSignal, h2]

/-- The four rules carry pairwise-distinct titles, so no two candidates of
one reading collide on the dedup key. -/
theorem check_thresholds_titles (r : SensorReading) (d : Device) :
    (check_thresholds r d).Pairwise (fun a b => a.title ≠ b.title) := by
  unfold check_thresholds
  rcases temperature_check_shape r with h1 | ⟨t, _, h1⟩ <;>
    rcases gas_index_check_shape r with h2 | ⟨g, _, h2⟩ <;>
      rcases vibration_check_shape r with h3 | h3 | h3 <;>
        rcases power_check_shape r with h4 | ⟨p, _, h4⟩ <;>
          rw [h1, h2, h3, h4] <;>
          simp [List.pairwise_append, List.pairwise_cons, temperatureAnomaly,
            gasAnomaly, vibrationCriticalAnomaly, vibrationWarningAnomaly,
            powerAnomaly]

/-- **C5** — Signals created by the batch sweep start in status `new`;
signals created by the live per-reading evaluation start in status
`completed`; and for the same reading/device the two paths produce the same
signals (same device, factory, kind, title, description, severity,
recommendation, confidence and detection time), the origin affecting only
the lifecycle fields. -/
theorem C5_origin_only_initial_status (store : List Signal)
    (input : List (Device × List SensorReading)) (use_ai : Bool)
    (r : SensorReading) (d : Device) (now : Nat) (resp : Option String)
    (parse : String → Option AIResult) :
    ((generate_signals_from_mock_data store input).1.all
      (fun s => decide (s ∈ store) || s.status == SignalStatus.new)) = true ∧
    ((process_signals_for_reading r d use_ai now resp parse).signals_created.all
      (fun s => s.status == SignalStatus.completed)) = true ∧
    (generate_signals_from_mock_data [] [(d, [r])]).1.map Signal.core =
      (process_signals_for_reading r d false now resp parse).signals_created.map
        Signal.core := by
  refine ⟨?_, ?_, ?_⟩
  · rw [List.all_eq_true]
    intro s hs
    rcases generate_status input store s hs with h | h <;> simp [h]
  · rw [List.all_eq_true]
    intro s hs
    simp [process_status r d use_ai now resp parse s hs]
  · have hgen : (generate_signals_from_mock_data [] [(d, [r])]).1 =
        (check_thresholds r d).map (mkBatchSignal d r) := by
      unfold generate_signals_from_mock_data
      unfold sweepReadingLoop
      rw [sweepAnomalyLoop_fresh d r (check_thresholds r d) []
        (fun a _ => rfl) (check_thresholds_titles r d)]
      rfl
    have hproc : (process_signals_for_reading r d false now resp
        parse).signals_created = (check_thresholds r d).map (mkRuleSignal r d now) := by
      simp [process_signals_for_reading]
    rw [hgen, hproc, List.map_map, List.map_map]
    rfl

end Carbonseed
